import Mathlib

/-!
Verification development for the finderblissha protocol engine
(custom_components/finderblissha/pyfinderbliss).

The Python source is shallowly embedded: JSON values become the `Json`
inductive (numbers as exact rationals), Python strings become `List Char`,
stateful async code becomes explicit state passing over a `ClientState`,
incoming WebSocket traffic becomes a list of received messages (each a list
of decoded frames), and a receive timeout is the exhaustion of that list.
Fallible Python code returns `Except PyErr`.
-/

set_option maxHeartbeats 1000000
set_option maxRecDepth 100000
set_option synthInstance.maxHeartbeats 1000000

/-- Characters of a Lean string literal, used to write Python strings. -/
def cs (s : String) : List Char := s.data

/-- JSON values. Numbers are exact rationals: every numeric literal the
code manipulates (tenths-of-unit integers, sync versions) is exactly
representable, and division by 10 is exact. -/
inductive Json where
  | null
  | bool (b : Bool)
  | num (q : Rat)
  | str (s : List Char)
  | arr (xs : List Json)
  | obj (fields : List (List Char × Json))
deriving Repr

mutual

/-- Decidable equality on JSON values (the derive handler does not support
this nested inductive). -/
def jsonDecEq : (a b : Json) → Decidable (a = b)
  | .null, .null => isTrue rfl
  | .null, .bool _ => isFalse (fun h => Json.noConfusion h)
  | .null, .num _ => isFalse (fun h => Json.noConfusion h)
  | .null, .str _ => isFalse (fun h => Json.noConfusion h)
  | .null, .arr _ => isFalse (fun h => Json.noConfusion h)
  | .null, .obj _ => isFalse (fun h => Json.noConfusion h)
  | .bool _, .null => isFalse (fun h => Json.noConfusion h)
  | .bool a, .bool b =>
    match decEq a b with
    | isTrue h => isTrue (by rw [h])
    | isFalse h => isFalse (fun hh => h (Json.bool.inj hh))
  | .bool _, .num _ => isFalse (fun h => Json.noConfusion h)
  | .bool _, .str _ => isFalse (fun h => Json.noConfusion h)
  | .bool _, .arr _ => isFalse (fun h => Json.noConfusion h)
  | .bool _, .obj _ => isFalse (fun h => Json.noConfusion h)
  | .num _, .null => isFalse (fun h => Json.noConfusion h)
  | .num _, .bool _ => isFalse (fun h => Json.noConfusion h)
  | .num a, .num b =>
    match decEq a b with
    | isTrue h => isTrue (by rw [h])
    | isFalse h => isFalse (fun hh => h (Json.num.inj hh))
  | .num _, .str _ => isFalse (fun h => Json.noConfusion h)
  | .num _, .arr _ => isFalse (fun h => Json.noConfusion h)
  | .num _, .obj _ => isFalse (fun h => Json.noConfusion h)
  | .str _, .null => isFalse (fun h => Json.noConfusion h)
  | .str _, .bool _ => isFalse (fun h => Json.noConfusion h)
  | .str _, .num _ => isFalse (fun h => Json.noConfusion h)
  | .str a, .str b =>
    match decEq a b with
    | isTrue h => isTrue (by rw [h])
    | isFalse h => isFalse (fun hh => h (Json.str.inj hh))
  | .str _, .arr _ => isFalse (fun h => Json.noConfusion h)
  | .str _, .obj _ => isFalse (fun h => Json.noConfusion h)
  | .arr _, .null => isFalse (fun h => Json.noConfusion h)
  | .arr _, .bool _ => isFalse (fun h => Json.noConfusion h)
  | .arr _, .num _ => isFalse (fun h => Json.noConfusion h)
  | .arr _, .str _ => isFalse (fun h => Json.noConfusion h)
  | .arr a, .arr b =>
    match jsonDecEqList a b with
    | isTrue h => isTrue (by rw [h])
    | isFalse h => isFalse (fun hh => h (Json.arr.inj hh))
  | .arr _, .obj _ => isFalse (fun h => Json.noConfusion h)
  | .obj _, .null => isFalse (fun h => Json.noConfusion h)
  | .obj _, .bool _ => isFalse (fun h => Json.noConfusion h)
  | .obj _, .num _ => isFalse (fun h => Json.noConfusion h)
  | .obj _, .str _ => isFalse (fun h => Json.noConfusion h)
  | .obj _, .arr _ => isFalse (fun h => Json.noConfusion h)
  | .obj a, .obj b =>
    match jsonDecEqFields a b with
    | isTrue h => isTrue (by rw [h])
    | isFalse h => isFalse (fun hh => h (Json.obj.inj hh))

/-- Decidable equality on lists of JSON values. -/
def jsonDecEqList : (a b : List Json) → Decidable (a = b)
  | [], [] => isTrue rfl
  | [], _ :: _ => isFalse (fun h => List.noConfusion h)
  | _ :: _, [] => isFalse (fun h => List.noConfusion h)
  | x :: xs, y :: ys =>
    match jsonDecEq x y with
    | isTrue h1 =>
      (match jsonDecEqList xs ys with
       | isTrue h2 => isTrue (by rw [h1, h2])
       | isFalse h2 => isFalse (fun hh => h2 (List.cons.inj hh).2)
      )
    | isFalse h1 => isFalse (fun hh => h1 (List.cons.inj hh).1)

/-- Decidable equality on JSON object field lists. -/
def jsonDecEqFields : (a b : List (List Char × Json)) → Decidable (a = b)
  | [], [] => isTrue rfl
  | [], _ :: _ => isFalse (fun h => List.noConfusion h)
  | _ :: _, [] => isFalse (fun h => List.noConfusion h)
  | (k, v) :: xs, (k', v') :: ys =>
    match decEq k k' with
    | isTrue hk =>
      (match jsonDecEq v v' with
       | isTrue h1 =>
         (match jsonDecEqFields xs ys with
          | isTrue h2 => isTrue (by rw [hk, h1, h2])
          | isFalse h2 => isFalse (fun hh => h2 (List.cons.inj hh).2)
         )
       | isFalse h1 =>
         isFalse (fun hh => h1 (congrArg Prod.snd (List.cons.inj hh).1))
      )
    | isFalse hk => isFalse (fun hh => hk (congrArg Prod.fst (List.cons.inj hh).1))

end

instance : DecidableEq Json := jsonDecEq

deriving instance DecidableEq for Except

/-- Lookup of a key in an object's field list (first match). -/
def jsonLookup : List (List Char × Json) → List Char → Option Json
  | [], _ => none
  | (k', v) :: rest, k => if k' = k then some v else jsonLookup rest k

/-- Python dict assignment semantics: an existing key is updated in place
(keeping its position), a new key is appended at the end. -/
def objInsert : List (List Char × Json) → List Char → Json → List (List Char × Json)
  | [], k, v => [(k, v)]
  | (k', v') :: rest, k, v =>
    if k' = k then (k', v) :: rest else (k', v') :: objInsert rest k v

/-- Removal of a key from an object's field list (Python `del d[k]`;
keys are unique in dicts produced by `json.loads`, so removing every
occurrence coincides with removing the one entry). -/
def objErase (fs : List (List Char × Json)) (k : List Char) : List (List Char × Json) :=
  fs.filter (fun kv => kv.1 ≠ k)

/-- Does the character list `n` occur as a contiguous run at the start of `h`. -/
def startsWith : List Char → List Char → Bool
  | [], _ => true
  | _ :: _, [] => false
  | a :: as, b :: bs => a = b && startsWith as bs

/-- Does the character list `n` occur contiguously anywhere in `h`
(Python `n in h` on strings). -/
def containsSeq (n : List Char) : List Char → Bool
  | [] => n.isEmpty
  | c :: rest => startsWith n (c :: rest) || containsSeq n rest

/-- JSON whitespace per RFC 8259 (what Python json skips between tokens). -/
def isJsonWs (c : Char) : Bool :=
  c = ' ' || c = '\t' || c = '\n' || c = '\r'

/-- Drop leading JSON whitespace. -/
def skipWs : List Char → List Char
  | [] => []
  | c :: rest => if isJsonWs c then skipWs rest else c :: rest

/-- Decimal digit test. -/
def isDigitCh (c : Char) : Bool := '0' ≤ c && c ≤ '9'

/-- Split leading decimal digits from the rest. -/
def takeDigits : List Char → (List Char × List Char)
  | [] => ([], [])
  | c :: rest =>
    if isDigitCh c then
      let (ds, r) := takeDigits rest
      (c :: ds, r)
    else ([], c :: rest)

/-- Numeric value of a digit list (most significant first). -/
def digitsToNat (ds : List Char) : Nat :=
  ds.foldl (fun acc c => acc * 10 + (c.toNat - '0'.toNat)) 0

/-- Parse the exponent part of a JSON number (after the e/E marker). -/
def parseExpPart (rest : List Char) : Option (Bool × Nat × List Char) :=
  match rest with
  | '-' :: r2 =>
    let (ed, r3) := takeDigits r2
    if ed.isEmpty then none else some (true, digitsToNat ed, r3)
  | '+' :: r2 =>
    let (ed, r3) := takeDigits r2
    if ed.isEmpty then none else some (false, digitsToNat ed, r3)
  | r2 =>
    let (ed, r3) := takeDigits r2
    if ed.isEmpty then none else some (false, digitsToNat ed, r3)

/-- Parse a JSON number (sign, integer part, optional fraction, optional
exponent) into an exact rational, returning the unconsumed input. The
rational is assembled with `Rat.divInt` on integer mantissa and power of
ten, which the kernel can evaluate. -/
def parseNumber (s : List Char) : Option (Rat × List Char) :=
  let (negSign, s1) := match s with
    | '-' :: rest => (true, rest)
    | _ => (false, s)
  let (ip, s2) := takeDigits s1
  if ip.isEmpty then none
  else if 1 < ip.length ∧ ip.headD '0' = '0' then none
  else
    let fracRes : Option (List Char × List Char) := match s2 with
      | '.' :: rest =>
        let (fd, r) := takeDigits rest
        if fd.isEmpty then none else some (fd, r)
      | _ => some ([], s2)
    match fracRes with
    | none => none
    | some (fd, s3) =>
      let expRes : Option (Bool × Nat × List Char) := match s3 with
        | 'e' :: rest => parseExpPart rest
        | 'E' :: rest => parseExpPart rest
        | _ => some (false, 0, s3)
      match expRes with
      | none => none
      | some (expNeg, expVal, s4) =>
        let mantNat : Nat := digitsToNat ip * 10 ^ fd.length + digitsToNat fd
        let mant : Int := if negSign then -(mantNat : Int) else (mantNat : Int)
        let q : Rat :=
          if expNeg then Rat.divInt mant ((10 : Int) ^ (fd.length + expVal))
          else Rat.divInt (mant * (10 : Int) ^ expVal) ((10 : Int) ^ fd.length)
        some (q, s4)

/-- Hex digit value. -/
def hexVal (c : Char) : Option Nat :=
  if '0' ≤ c ∧ c ≤ '9' then some (c.toNat - '0'.toNat)
  else if 'a' ≤ c ∧ c ≤ 'f' then some (c.toNat - 'a'.toNat + 10)
  else if 'A' ≤ c ∧ c ≤ 'F' then some (c.toNat - 'A'.toNat + 10)
  else none

/-- Parse the body of a JSON string literal (after the opening quote),
handling the standard escapes, up to and including the closing quote. -/
def parseStrBody : Nat → List Char → Option (List Char × List Char)
  | 0, _ => none
  | _ + 1, [] => none
  | fuel + 1, c :: rest =>
    if c = '"' then some ([], rest)
    else if c = '\\' then
      match rest with
      | [] => none
      | e :: rest2 =>
        let cont (decoded : Char) (r : List Char) : Option (List Char × List Char) :=
          match parseStrBody fuel r with
          | some (body, r') => some (decoded :: body, r')
          | none => none
        if e = '"' then cont '"' rest2
        else if e = '\\' then cont '\\' rest2
        else if e = '/' then cont '/' rest2
        else if e = 'b' then cont (Char.ofNat 8) rest2
        else if e = 'f' then cont (Char.ofNat 12) rest2
        else if e = 'n' then cont '\n' rest2
        else if e = 'r' then cont '\r' rest2
        else if e = 't' then cont '\t' rest2
        else if e = 'u' then
          match rest2 with
          | h1 :: h2 :: h3 :: h4 :: rest3 =>
            match hexVal h1, hexVal h2, hexVal h3, hexVal h4 with
            | some a, some b, some cc, some d =>
              cont (Char.ofNat (((a * 16 + b) * 16 + cc) * 16 + d)) rest3
            | _, _, _, _ => none
          | _ => none
        else none
    else
      match parseStrBody fuel rest with
      | some (body, r') => some (c :: body, r')
      | none => none

/-- Parse a comma-separated run of values closed by a bracket, with `p`
parsing one element. -/
def parseElems (p : List Char → Option (Json × List Char)) :
    Nat → List Char → Option (List Json × List Char)
  | 0, _ => none
  | fuel + 1, s =>
    match p (skipWs s) with
    | none => none
    | some (v, rest) =>
      match skipWs rest with
      | ',' :: rest2 =>
        (match parseElems p fuel rest2 with
         | some (vs, r) => some (v :: vs, r)
         | none => none)
      | ']' :: rest2 => some ([v], rest2)
      | _ => none

/-- Parse a comma-separated run of string-keyed members closed by a brace,
accumulating with Python dict insertion (duplicate keys: last value wins). -/
def parseMembers (p : List Char → Option (Json × List Char)) :
    Nat → List (List Char × Json) → List Char → Option (List (List Char × Json) × List Char)
  | 0, _, _ => none
  | fuel + 1, acc, s =>
    match skipWs s with
    | '"' :: rest =>
      match parseStrBody (rest.length + 1) rest with
      | none => none
      | some (key, rest2) =>
        match skipWs rest2 with
        | ':' :: rest3 =>
          (match p (skipWs rest3) with
           | none => none
           | some (v, rest4) =>
             let acc2 := objInsert acc key v
             match skipWs rest4 with
             | ',' :: rest5 => parseMembers p fuel acc2 rest5
             | '\x7d' :: rest5 => some (acc2, rest5)
             | _ => none)
        | _ => none
    | _ => none

/-- Parse one JSON value, returning it with the unconsumed input. -/
def parseVal : Nat → List Char → Option (Json × List Char)
  | 0, _ => none
  | fuel + 1, s =>
    match skipWs s with
    | [] => none
    | c :: rest =>
      if c = '\x7b' then
        match skipWs rest with
        | '\x7d' :: rest2 => some (.obj [], rest2)
        | s2 => match parseMembers (parseVal fuel) (s2.length + 1) [] s2 with
                | some (fs, r) => some (.obj fs, r)
                | none => none
      else if c = '[' then
        match skipWs rest with
        | ']' :: rest2 => some (.arr [], rest2)
        | s2 => match parseElems (parseVal fuel) (s2.length + 1) s2 with
                | some (vs, r) => some (.arr vs, r)
                | none => none
      else if c = '"' then
        match parseStrBody (rest.length + 1) rest with
        | some (body, r) => some (.str body, r)
        | none => none
      else if c = 't' then
        match rest with
        | 'r' :: 'u' :: 'e' :: r => some (.bool true, r)
        | _ => none
      else if c = 'f' then
        match rest with
        | 'a' :: 'l' :: 's' :: 'e' :: r => some (.bool false, r)
        | _ => none
      else if c = 'n' then
        match rest with
        | 'u' :: 'l' :: 'l' :: r => some (.null, r)
        | _ => none
      else
        match parseNumber (c :: rest) with
        | some (q, r) => some (.num q, r)
        | none => none

/-- Python `json.loads`: parse a complete JSON document; anything but a
single value surrounded by whitespace is a decode error (`none`). -/
def jsonLoads (s : List Char) : Option Json :=
  match parseVal (2 * s.length + 4) s with
  | some (v, rest) => if (skipWs rest).isEmpty then some v else none
  | none => none

/-- Decimal digits of a natural number. -/
def natChars (n : Nat) : List Char := Nat.toDigits 10 n

/-- Decimal rendering of an integer. -/
def intChars (i : Int) : List Char :=
  if i < 0 then '-' :: natChars (-i).toNat else natChars i.toNat

/-- Smallest exponent k (searched from the given start) with den dividing
10 to the k, within the remaining fuel. -/
def decExpAux (den : Nat) (k : Nat) : Nat → Option Nat
  | 0 => none
  | fuel + 1 =>
    if (10 : Nat) ^ k % den = 0 then some k else decExpAux den (k + 1) fuel

/-- Render a rational the way `json.dumps` renders the Python number it
models: integers in decimal, and decimally-representable fractions with a
decimal point (the only numerics this code ever serializes; a rational
whose denominator divides no power of ten is outside the modelled domain
and rendered as 0). -/
def ratChars (q : Rat) : List Char :=
  match decExpAux q.den 0 64 with
  | some 0 => intChars q.num
  | some k =>
    let scaledAbs : Nat := q.num.natAbs * 10 ^ k / q.den
    let digits := natChars scaledAbs
    let digits := if digits.length ≤ k then
        List.replicate (k + 1 - digits.length) '0' ++ digits else digits
    let whole := digits.take (digits.length - k)
    let frac := digits.drop (digits.length - k)
    (if q.num < 0 then ['-'] else []) ++ whole ++ '.' :: frac
  | none => cs "0"

/-- Escape one character for a JSON string literal as `json.dumps` does
(ASCII data: quote, backslash and control characters escaped). -/
def escapeChar (c : Char) : List Char :=
  if c = '"' then ['\\', '"']
  else if c = '\\' then ['\\', '\\']
  else if c.toNat < 32 then
    '\\' :: 'u' :: '0' :: '0' ::
      (Nat.toDigits 16 c.toNat |>.reverse |>.take 2 |>.reverse |>
        fun ds => if ds.length = 1 then '0' :: ds else ds)
  else [c]

/-- Serialize a character list as a JSON string literal. -/
def dumpStr (s : List Char) : List Char :=
  '"' :: (s.foldr (fun c acc => escapeChar c ++ acc) ['"'])

mutual

/-- Python `json.dumps(x, separators=(",", ":"))`: compact serialization. -/
def jsonDumps : Json → List Char
  | .null => cs "null"
  | .bool true => cs "true"
  | .bool false => cs "false"
  | .num q => ratChars q
  | .str s => dumpStr s
  | .arr xs => '[' :: dumpElems xs ++ [']']
  | .obj fs => '\x7b' :: dumpFields fs ++ ['\x7d']

/-- Comma-joined serializations of array elements. -/
def dumpElems : List Json → List Char
  | [] => []
  | [x] => jsonDumps x
  | x :: y :: rest => jsonDumps x ++ ',' :: dumpElems (y :: rest)

/-- Comma-joined serializations of object members. -/
def dumpFields : List (List Char × Json) → List Char
  | [] => []
  | [(k, v)] => dumpStr k ++ ':' :: jsonDumps v
  | (k, v) :: m :: rest => dumpStr k ++ ':' :: jsonDumps v ++ ',' :: dumpFields (m :: rest)

end

/-- Python-level errors surfaced by the embedded code. -/
inductive PyErr where
  | keyError (k : List Char)
  | typeError
  | valueError
  | attributeError
  | jsonDecodeError
  | exception (msg : List Char)
deriving DecidableEq, Repr

/-- Python truthiness of a JSON-shaped value. -/
def pyTruthy : Json → Bool
  | .null => false
  | .bool b => b
  | .num q => if q = 0 then false else true
  | .str s => !s.isEmpty
  | .arr xs => !xs.isEmpty
  | .obj fs => !fs.isEmpty

/-- Python `x or y`. -/
def pyOr (a b : Json) : Json := if pyTruthy a then a else b

/-- Python `isinstance(v, (int, float))`; `bool` is a subtype of `int`
in Python, so booleans pass this test. -/
def isNumericPy : Json → Bool
  | .num _ => true
  | .bool _ => true
  | _ => false

/-- Numeric value of a Python int/float/bool. -/
def numValPy : Json → Rat
  | .num q => q
  | .bool b => if b then 1 else 0
  | _ => 0

/-- Exact division by ten, written on numerator and denominator so the
kernel can evaluate it; equal to `q / 10` (ratDiv10_eq below). -/
def ratDiv10 (q : Rat) : Rat := Rat.divInt q.num (q.den * 10)

/-- Python `int(v)` truncation toward zero of an exact rational. -/
def ratTruncInt (q : Rat) : Int := Int.tdiv q.num q.den

/-- Python dict method `d.get(k, default)`; AttributeError on non-dicts. -/
def pyGet (j : Json) (k : List Char) (dflt : Json) : Except PyErr Json :=
  match j with
  | .obj fs => .ok ((jsonLookup fs k).getD dflt)
  | _ => .error .attributeError

/-- Python `d[k]` subscription by a string key: KeyError when a dict
lacks the key, TypeError on non-dicts. -/
def pyGetItem (j : Json) (k : List Char) : Except PyErr Json :=
  match j with
  | .obj fs =>
    match jsonLookup fs k with
    | some v => .ok v
    | none => .error (.keyError k)
  | _ => .error .typeError

/-- Python `d[k] = v` by a string key. -/
def pySetItem (j : Json) (k : List Char) (v : Json) : Except PyErr Json :=
  match j with
  | .obj fs => .ok (.obj (objInsert fs k v))
  | _ => .error .typeError

/-- Python `del d[k]` by a string key. -/
def pyDelItem (j : Json) (k : List Char) : Except PyErr Json :=
  match j with
  | .obj fs => .ok (.obj (objErase fs k))
  | _ => .error .typeError

/-- Python `k in j` for a string k: key test on dicts, membership on
lists, substring test on strings, TypeError otherwise. -/
def pyContainsKey (j : Json) (k : List Char) : Except PyErr Bool :=
  match j with
  | .obj fs => .ok (jsonLookup fs k).isSome
  | .arr xs => .ok (xs.contains (.str k))
  | .str s => .ok (containsSeq k s)
  | _ => .error .typeError

/-- Python iteration `for x in v`: lists yield elements, strings yield
one-character strings, dicts yield their keys, others raise TypeError. -/
def pyIter : Json → Except PyErr (List Json)
  | .arr xs => .ok xs
  | .str s => .ok (s.map (fun c => .str [c]))
  | .obj fs => .ok (fs.map (fun kv => .str kv.1))
  | _ => .error .typeError

/-- Python `str.upper()` (ASCII data); AttributeError on non-strings. -/
def pyUpper : Json → Except PyErr Json
  | .str s => .ok (.str (s.map Char.toUpper))
  | _ => .error .attributeError

/-- Strip leading and trailing whitespace. -/
def stripWs (s : List Char) : List Char :=
  ((s.dropWhile Char.isWhitespace).reverse.dropWhile Char.isWhitespace).reverse

/-- Python `s * n` string repetition. -/
def strRepeat (s : List Char) (n : Nat) : List Char :=
  (List.replicate n s).flatten

/-- Python `int(s)` on a string: optional surrounding whitespace and
sign followed by digits, otherwise ValueError. -/
def pyIntOfStr (s : List Char) : Except PyErr Int :=
  let t := stripWs s
  let (neg, t2) : Bool × List Char := match t with
    | '-' :: r => (true, r)
    | '+' :: r => (false, r)
    | r => (false, r)
  if ¬ t2.isEmpty ∧ t2.all isDigitCh then
    .ok (if neg then -(digitsToNat t2 : Int) else (digitsToNat t2 : Int))
  else .error .valueError

/-- Python `int(v * 10)` as the setters use it: numbers multiply by ten
and truncate toward zero, bools coerce as 0/1, a string is repeated ten
times and then parsed as an int literal (ValueError for the "N/A"
sentinel), and other operands raise TypeError. -/
def pyTimes10Int (v : Json) : Except PyErr Int :=
  match v with
  | .num q => .ok (Int.tdiv (q.num * 10) q.den)
  | .bool b => .ok (if b then 10 else 0)
  | .str s => pyIntOfStr (strRepeat s 10)
  | _ => .error .typeError

/-!
Embedding of device_parser.py.
-/

/-- Model of parse_value: a dict is replaced by its value member, then
ints/floats (and bools, via Python isinstance) pass through unchanged and
everything else becomes the "N/A" sentinel. -/
def parse_value (v : Json) : Json :=
  let value := match v with
    | .obj fs => (jsonLookup fs (cs "value")).getD .null
    | _ => v
  if isNumericPy value then value else .str (cs "N/A")

/-- Model of parse_temperature: tenths of a degree divided by ten, the
"N/A" sentinel for missing or non-numeric input. -/
def parse_temperature (temp_data : Json) : Json :=
  let value := match temp_data with
    | .obj fs => (jsonLookup fs (cs "value")).getD .null
    | _ => temp_data
  if isNumericPy value then .num (ratDiv10 (numValPy value)) else .str (cs "N/A")

/-- Model of parse_set_point (same behaviour as parse_temperature). -/
def parse_set_point (set_point_data : Json) : Json :=
  let value := match set_point_data with
    | .obj fs => (jsonLookup fs (cs "value")).getD .null
    | _ => set_point_data
  if isNumericPy value then .num (ratDiv10 (numValPy value)) else .str (cs "N/A")

/-- Model of safe_json_load: strings are parsed with parse failures giving
an empty dict, dicts pass through and anything else gives an empty dict. -/
def safe_json_load (data : Json) : Json :=
  match data with
  | .str s => (jsonLoads s).getD (.obj [])
  | .obj fs => .obj fs
  | _ => .obj []

/-- Model of determine_bliss1_mode. -/
def determine_bliss1_mode (settings : Json) : Except PyErr Json := do
  let ms ← pyGet settings (cs "manualSchedule") (.obj [])
  let is_on ← pyGet ms (cs "isOn") (.bool false)
  let m0 ← pyGet settings (cs "mode") (.str (cs "OFF"))
  let mode ← pyUpper m0
  if mode = .str (cs "AUTO") then pure (.str (cs "auto"))
  else if mode = .str (cs "OFF") ∧ pyTruthy is_on then pure (.str (cs "manual"))
  else if mode = .str (cs "OFF") ∧ ¬ pyTruthy is_on then pure (.str (cs "off"))
  else pure (.str (cs "unknown"))

/-- Model of determine_bliss2_mode: the numeric code table with 0 and 2
mapping to OFF, 1 to AUTO, 3 to MANUAL and everything else to UNKNOWN
(a Python bool measures mode hits the table as 0/1 since bool hashes and
compares as int). -/
def determine_bliss2_mode (measures : Json) : Except PyErr Json := do
  let m ← pyGet measures (cs "mode") (.num 0)
  let key : Option Nat := match m with
    | .num q =>
      if q = 0 then some 0 else if q = 1 then some 1
      else if q = 2 then some 2 else if q = 3 then some 3 else none
    | .bool b => some (if b then 1 else 0)
    | _ => none
  pure (.str (cs (match key with
    | some 0 => "OFF"
    | some 1 => "AUTO"
    | some 2 => "OFF"
    | some 3 => "MANUAL"
    | _ => "UNKNOWN")))

/-- Normalized device record returned by parse_device (the Python dict,
one field per key). -/
structure DeviceRecord where
  name : Json
  handle : Json
  serial_number : Json
  model : Json
  mode : Json
  status : Json
  temperature : Json
  humidity : Json
  set_point : Json
  manual_set_point : Json
  mode_setting : Json
  wifi_level : Json
  battery_level : Json
  role : Json
  house_handle : Json
  gateway_handle : Json
  is_deleted : Json
  tag : Json
  channel : Json
  settings : Json
  measures : Json
  schedules : Json
deriving DecidableEq, Repr

/-- Model of parse_device, following the source step for step. -/
def parse_device (device : Json) : Except PyErr DeviceRecord := do
  let handle ← pyGet device (cs "handle") .null
  let tag ← pyGet device (cs "tag") .null
  let name ← pyGet device (cs "name") (.str (cs "Unknown"))
  let serial_number ← pyGet device (cs "serialNumber") (.str (cs "Unknown"))
  let model ← pyGet device (cs "tag") (.str (cs "Unknown"))
  let role ← pyGet device (cs "role") .null
  let house_handle ← pyGet device (cs "houseHandle") .null
  let gateway_handle ← pyGet device (cs "gatewayHandle") .null
  let is_deleted ← pyGet device (cs "isDeleted") (.bool false)
  let settings_raw ← pyGet device (cs "settings") (.str (cs "\x7b\x7d"))
  let measures_raw ← pyGet device (cs "measures") (.str (cs "\x7b\x7d"))
  let schedules_raw ← pyGet device (cs "schedules") (.str (cs "[]"))
  let measures_parsed := safe_json_load measures_raw
  let settings_parsed := safe_json_load settings_raw
  let mode ← if tag = .str (cs "BLISS2") then determine_bliss2_mode measures_parsed
             else determine_bliss1_mode settings_parsed
  let status ← pyGet measures_parsed (cs "status") (.str (cs "N/A"))
  let humidity := parse_value ((← pyGet measures_parsed (cs "humidity") .null))
  let wifi_level ← pyGet measures_parsed (cs "wifiLevel") (.str (cs "N/A"))
  let battery_level := parse_value ((← pyGet measures_parsed (cs "batteryLevel") .null))
  let temperature := parse_temperature ((← pyGet measures_parsed (cs "temperature") .null))
  let set_point := parse_set_point ((← pyGet measures_parsed (cs "setPoint") .null))
  let msPair ←
    if tag = .str (cs "BLISS2") then do
      let primary_settings ← pyGet settings_parsed (cs "primary") (.obj [])
      let mode_setting ← pyGet primary_settings (cs "mode") (.str (cs "N/A"))
      let msp := parse_set_point ((← pyGet primary_settings (cs "manualSetPoint") .null))
      pure (mode_setting, msp)
    else do
      let mode_setting ← pyGet settings_parsed (cs "mode") (.str (cs "N/A"))
      let ms ← pyGet settings_parsed (cs "manualSchedule") (.obj [])
      let msp := parse_set_point ((← pyGet ms (cs "setPoint") .null))
      pure (mode_setting, msp)
  let channel ← pyGet device (cs "channel") .null
  pure { name, handle, serial_number, model, mode, status, temperature, humidity,
         set_point, manual_set_point := msPair.2, mode_setting := msPair.1,
         wifi_level, battery_level, role, house_handle, gateway_handle,
         is_deleted, tag, channel, settings := settings_raw,
         measures := measures_raw, schedules := schedules_raw }

/-- The list comprehension in parse_device_data: keep entries whose tag is
BLISS1 or BLISS2 and parse each. -/
def parseDevicesList : List Json → Except PyErr (List DeviceRecord)
  | [] => .ok []
  | d :: rest => do
    let t ← pyGet d (cs "tag") .null
    if t = .str (cs "BLISS1") ∨ t = .str (cs "BLISS2") then do
      let r ← parse_device d
      let rs ← parseDevicesList rest
      pure (r :: rs)
    else parseDevicesList rest

/-- Model of parse_device_data: parse a string payload (a decode failure
returns the empty list, per the except clause), read its devices member
and parse the recognized entries. -/
def parse_device_data (payload : Json) : Except PyErr (List DeviceRecord) :=
  let dataRes : Option Json := match payload with
    | .str s => jsonLoads s
    | j => some j
  match dataRes with
  | none => .ok []
  | some data =>
    match pyGet data (cs "devices") (.arr []) with
    | .error e => .error e
    | .ok devices =>
      match pyIter devices with
      | .error e => .error e
      | .ok xs => parseDevicesList xs

/-!
Embedding of pyfinderbliss_wrapper.py (BlissDevice and its setters).
-/

/-- In-memory BlissDevice: one field per attribute set in __init__ (all
JSON-shaped, as the constructor copies whatever the parser dict holds). -/
structure BlissDevice where
  handle : Json
  name : Json
  temperature : Json
  humidity : Json
  set_point : Json
  manual_set_point : Json
  mode : Json
  mode_setting : Json
  wifi_level : Json
  battery_level : Json
  status : Json
  serial_number : Json
  model : Json
  role : Json
  house_handle : Json
  gateway_handle : Json
  is_deleted : Json
  tag : Json
  channel : Json
  settings : Json
  measures : Json
  schedules : Json
deriving DecidableEq, Repr

/-- Full device object assembled for clientPayload by both setters, in
the source's key order. -/
def deviceDataToSend (d : BlissDevice) (modifiedSettings : List Char) : Json :=
  .obj [
    (cs "handle", d.handle),
    (cs "serialNumber", d.serial_number),
    (cs "name", d.name),
    (cs "settings", .str modifiedSettings),
    (cs "measures", d.measures),
    (cs "schedules", d.schedules),
    (cs "houseHandle", d.house_handle),
    (cs "tag", d.tag),
    (cs "channel", d.channel),
    (cs "status", .str (cs "PENDING")),
    (cs "syncVersion", .num 0),
    (cs "isDeleted", d.is_deleted),
    (cs "role", d.role),
    (cs "gatewayHandle", d.gateway_handle)]

/-- The schedule-override clearing shared by both setters: delete the
manualTimer key when present (its mere presence overrides primary.mode). -/
def deleteManualTimer (settings_dict : Json) : Except PyErr Json := do
  let hasTimer ← pyContainsKey settings_dict (cs "manualTimer")
  if hasTimer then pyDelItem settings_dict (cs "manualTimer")
  else pure settings_dict

/-- Model of BlissDevice.set_mode. The returned pair is the device object
handed to send_operation and the updated in-memory device; hasClient
models whether self._client is bound. -/
def set_mode (hasClient : Bool) (d : BlissDevice) (mode0 : List Char) :
    Except PyErr (Json × BlissDevice) := do
  let mode := mode0.map Char.toUpper
  if ¬ hasClient then throw (.exception (cs "Device client not initialized"))
  let settings_dict ← match d.settings with
    | .str s =>
      match jsonLoads s with
      | some j => pure j
      | none => throw .jsonDecodeError
    | _ => throw .typeError
  let settings_dict ←
    if d.model = .str (cs "BLISS2") ∨ d.model = .str (cs "BLISS-HA") then
      if mode = cs "AUTO" ∨ mode = cs "OFF" ∨ mode = cs "FROST" ∨ mode = cs "ECO" then
        pySetItem settings_dict (cs "primary")
          (.obj [(cs "mode", .str mode), (cs "manualSetPoint", .null)])
      else if mode = cs "MANUAL" then do
        let prim ← pyGetItem settings_dict (cs "primary")
        let msp ← pyGet prim (cs "manualSetPoint") .null
        let prim ←
          if msp = .null then do
            let current_sp_value ← pyTimes10Int (pyOr d.set_point (.num 18))
            pySetItem prim (cs "manualSetPoint")
              (.obj [(cs "unit", .str (cs "C")), (cs "value", .num (current_sp_value : Rat)),
                     (cs "preset", .num 0)])
          else pure prim
        let prim ← pySetItem prim (cs "mode") (.str mode)
        pySetItem settings_dict (cs "primary") prim
      else throw .valueError
    else pure settings_dict
  let settings_dict ← deleteManualTimer settings_dict
  let modified := jsonDumps settings_dict
  pure (deviceDataToSend d modified,
        { d with settings := .str modified, mode := .str mode })

/-- Settings dict loaded by set_setpoint: json.loads of the settings
string, with TypeError and JSONDecodeError both giving an empty dict. -/
def loadedSettings (d : BlissDevice) : Json :=
  match d.settings with
  | .str s => (jsonLoads s).getD (.obj [])
  | _ => .obj []

/-- Model of BlissDevice.set_setpoint. -/
def set_setpoint (hasClient : Bool) (d : BlissDevice) (value : Rat) :
    Except PyErr (Json × BlissDevice) := do
  if ¬ hasClient then throw (.exception (cs "Device client not initialized"))
  let settings_dict := loadedSettings d
  let target_value_int : Int := Int.tdiv (value.num * 10) value.den
  let hasPrimary ← pyContainsKey settings_dict (cs "primary")
  let settings_dict ←
    if ¬ hasPrimary then pySetItem settings_dict (cs "primary") (.obj [])
    else pure settings_dict
  let prim ← pyGetItem settings_dict (cs "primary")
  let prim ← pySetItem prim (cs "mode") (.str (cs "MANUAL"))
  let prim ← pySetItem prim (cs "manualSetPoint")
    (.obj [(cs "unit", .str (cs "C")), (cs "value", .num (target_value_int : Rat)),
           (cs "preset", .num 0)])
  let settings_dict ← pySetItem settings_dict (cs "primary") prim
  let settings_dict ← deleteManualTimer settings_dict
  let modified := jsonDumps settings_dict
  pure (deviceDataToSend d modified,
        { d with settings := .str modified, set_point := .num value })

/-!
Embedding of the sync engine in client.py (get_devices / send_operation).
Incoming traffic is a list of received messages, each already decoded into
its frames; a receive timeout is the exhaustion of that list.
-/

/-- Mutable client state the claims concern: the tracked last server sync
version (a JSON value: the code stores whatever the frame carried) and
whether the WebSocket is connected. -/
structure ClientState where
  version : Json
  wsConnected : Bool
deriving DecidableEq, Repr

/-- Fresh client: _last_server_sync_version = 0, no WebSocket yet. -/
def initialClientState : ClientState := { version := .num 0, wsConnected := false }

/-- One outbound SyncRequest, reduced to the fields the claims inspect. -/
structure SentReq where
  status : List Char
  clientSyncVersion : Json
  serverSyncVersion : Json
  clientPayload : Option (List Char)
  clientOperationKey : List Char
deriving DecidableEq, Repr

/-- The passive SyncRequest get_devices sends: status SYNC, both version
fields hard-coded to zero, no payload. -/
def passiveSyncReq : SentReq :=
  { status := cs "SYNC", clientSyncVersion := .num 0, serverSyncVersion := .num 0,
    clientPayload := none, clientOperationKey := cs "ALL" }

/-- Errors surfaced by the sync engine: the bounded receive window
expiring, an unconnected socket, or a Python-level error while
inspecting frames. -/
inductive SyncErr where
  | timeout
  | notConnected
  | py (e : PyErr)
deriving DecidableEq, Repr

/-- Scan one frame's arguments for the first argument carrying a non-null
serverPayload; yield the version recorded with it (the source reads
arg.get("serverSyncVersion", 0)) together with the payload. -/
def argScanSync : List Json → Except PyErr (Option (Json × Json))
  | [] => .ok none
  | a :: rest => do
    let c ← pyContainsKey a (cs "serverPayload")
    if c then do
      let v ← pyGetItem a (cs "serverPayload")
      if v ≠ .null then do
        let ver ← pyGet a (cs "serverSyncVersion") (.num 0)
        pure (some (ver, v))
      else argScanSync rest
    else argScanSync rest

/-- Scan the frames of one received message for a sync answer: target
SyncRequest or SyncResponse, an arguments member, and an argument with a
non-null serverPayload. -/
def frameScanSync : List Json → Except PyErr (Option (Json × Json))
  | [] => .ok none
  | data :: rest => do
    let t ← pyGet data (cs "target") .null
    let inArgs ← pyContainsKey data (cs "arguments")
    if (t = .str (cs "SyncRequest") ∨ t = .str (cs "SyncResponse")) ∧ inArgs then do
      let argsJ ← pyGetItem data (cs "arguments")
      let args ← pyIter argsJ
      match ← argScanSync args with
      | some r => pure (some r)
      | none => frameScanSync rest
    else frameScanSync rest

/-- Scan successive received messages for the first sync payload. -/
def scanMsgs : List (List Json) → Except PyErr (Option (Json × Json))
  | [] => .ok none
  | frames :: rest =>
    match frameScanSync frames with
    | .error e => .error e
    | .ok (some r) => .ok (some r)
    | .ok none => scanMsgs rest

/-- Model of BlissClientAsync.get_devices: connect if needed, send the
passive SyncRequest, then scan incoming messages until a frame carries a
non-null serverPayload (recording that frame's serverSyncVersion into the
state), the stream is exhausted (receive timeout), or frame inspection
raises. Returns the new state, the requests sent, and the outcome. -/
def get_devices (st : ClientState) (msgs : List (List Json)) :
    ClientState × List SentReq × Except SyncErr Json :=
  let st := { st with wsConnected := true }
  match scanMsgs msgs with
  | .error e => (st, [passiveSyncReq], .error (.py e))
  | .ok none => (st, [passiveSyncReq], .error .timeout)
  | .ok (some (ver, payload)) => ({ st with version := ver }, [passiveSyncReq], .ok payload)

/-- Scan one frame's arguments for the first argument that has a
serverSyncVersion key at all (the setter acknowledgement match). -/
def argScanVer : List Json → Except PyErr (Option Json)
  | [] => .ok none
  | a :: rest => do
    let c ← pyContainsKey a (cs "serverSyncVersion")
    if c then do
      let v ← pyGetItem a (cs "serverSyncVersion")
      pure (some v)
    else argScanVer rest

/-- Scan the frames of one received message for a SyncRequest/SyncResponse
argument carrying a serverSyncVersion. -/
def frameScanVer : List Json → Except PyErr (Option Json)
  | [] => .ok none
  | data :: rest => do
    let t ← pyGet data (cs "target") .null
    let inArgs ← pyContainsKey data (cs "arguments")
    if (t = .str (cs "SyncRequest") ∨ t = .str (cs "SyncResponse")) ∧ inArgs then do
      let argsJ ← pyGetItem data (cs "arguments")
      let args ← pyIter argsJ
      match ← argScanVer args with
      | some v => pure (some v)
      | none => frameScanVer rest
    else frameScanVer rest

/-- Scan the bounded acknowledgement window for a new serverSyncVersion. -/
def scanAck : List (List Json) → Except PyErr (Option Json)
  | [] => .ok none
  | frames :: rest =>
    match frameScanVer frames with
    | .error e => .error e
    | .ok (some v) => .ok (some v)
    | .ok none => scanAck rest

/-- One key of step 1 of send_operation: serialize a dict/list member to
a JSON string, or insert the empty default when the key is missing. -/
def prepareKey (fs : List (List Char × Json)) (key : List Char) (empty : List Char) :
    List (List Char × Json) :=
  match jsonLookup fs key with
  | some (.obj o) => objInsert fs key (.str (jsonDumps (.obj o)))
  | some (.arr a) => objInsert fs key (.str (jsonDumps (.arr a)))
  | some _ => fs
  | none => objInsert fs key (.str empty)

/-- Steps 1-2 of send_operation on the copied dict's fields: force the
settings/measures/schedules members to be JSON strings. -/
def prepareFields (fs0 : List (List Char × Json)) : List (List Char × Json) :=
  prepareKey (prepareKey (prepareKey fs0 (cs "settings") (cs "\x7b\x7d"))
    (cs "measures") (cs "\x7b\x7d")) (cs "schedules") (cs "[]")

/-- Steps 1-2 of send_operation: copy the device dict (dict() on anything
else raises) and normalize the three nested members. -/
def preparePayload (device_data : Json) : Except PyErr Json :=
  match device_data with
  | .obj fs0 => .ok (.obj (prepareFields fs0))
  | _ => .error .typeError

/-- The active SyncRequest send_operation sends: status ACTIVE, the
clientSyncVersion echoing the tracked version, serverSyncVersion zero,
and the nested clientPayload string wrapping the prepared device. -/
def activeReqFor (st : ClientState) (pts : Json) (operation_key : List Char) : SentReq :=
  { status := cs "ACTIVE", clientSyncVersion := st.version,
    serverSyncVersion := .num 0,
    clientPayload := some (jsonDumps (.obj [(cs "devices", .arr [pts])])),
    clientOperationKey := operation_key }

/-- Model of BlissClientAsync.send_operation: fail without sending when
the socket is down, otherwise send the active SyncRequest (its
clientSyncVersion echoes the tracked version), scan up to debug_responses
received messages for any frame carrying a serverSyncVersion, and only
when one was observed run the follow-up passive sync, whose own failure
is swallowed. -/
def send_operation (st : ClientState) (device_data : Json) (operation_key : List Char)
    (debug_responses : Nat) (ackMsgs refreshMsgs : List (List Json)) :
    ClientState × List SentReq × Except SyncErr Unit :=
  if ¬ st.wsConnected then (st, [], .error .notConnected)
  else
    match preparePayload device_data with
    | .error e => (st, [], .error (.py e))
    | .ok pts =>
      let act : SentReq := activeReqFor st pts operation_key
      match scanAck (ackMsgs.take debug_responses) with
      | .error e => (st, [act], .error (.py e))
      | .ok none => (st, [act], .ok ())
      | .ok (some ver) =>
        let st1 := { st with version := ver }
        let (st2, sent2, _res) := get_devices st1 refreshMsgs
        (st2, act :: sent2, .ok ())

/-- One protocol operation on a client, with the messages the server
delivers during it. -/
inductive SyncOp where
  | passive (msgs : List (List Json))
  | active (device_data : Json) (ackMsgs refreshMsgs : List (List Json))
deriving Repr

/-- Client state after one operation (the default operation key and
acknowledgement window of the source). -/
def stepOp (st : ClientState) : SyncOp → ClientState
  | .passive msgs => (get_devices st msgs).1
  | .active dd ack refresh => (send_operation st dd (cs "ALL") 3 ack refresh).1

/-- Client state after a sequence of operations. -/
def runOps (st : ClientState) (ops : List SyncOp) : ClientState :=
  ops.foldl stepOp st

/-!
Frame codec (the TEXT branch of _handle_message and the outbound
`json.dumps(x) + "\x1e"` pattern).
-/

/-- The record separator framing character. -/
def recordSep : Char := '\x1e'

/-- Split a WebSocket text message on the record separator (Python
str.split, which keeps empty segments). -/
def splitRS : List Char → List (List Char)
  | [] => [[]]
  | c :: rest =>
    if c = recordSep then [] :: splitRS rest
    else
      match splitRS rest with
      | seg :: segs => (c :: seg) :: segs
      | [] => [[c]]

/-- Is the segment whitespace only (Python `not frame.strip()`). -/
def isBlankSeg (s : List Char) : Bool := s.all Char.isWhitespace

/-- Model of the TEXT branch of _handle_message, with `loads` standing
for json.loads: split raw text on the record separator, skip blank
segments, parse each remaining segment and drop the ones that fail to
parse without aborting the rest. -/
def decodeFrames (loads : List Char → Option Json) (text : List Char) : List Json :=
  (splitRS text).filterMap (fun frame => if isBlankSeg frame then none else loads frame)

/-- Frame encoding used for every outbound message: the serialized JSON
followed by a single record separator. -/
def encodeFrame (dumps : Json → List Char) (x : Json) : List Char :=
  dumps x ++ [recordSep]

/-!
Concrete values and observation helpers used by the claims.
-/

/-- Boolean success test on an embedded Python result. -/
def exceptOk : Except PyErr (Json × BlissDevice) → Bool
  | .ok _ => true
  | .error _ => false

/-- The settings string carried in an outbound setter payload. -/
def outboundSettings : Except PyErr (Json × BlissDevice) → Option (List Char)
  | .ok (.obj fs, _) =>
    match jsonLookup fs (cs "settings") with
    | some (.str s) => some s
    | _ => none
  | _ => none

/-- The primary.mode member of the parsed outbound settings string. -/
def outboundPrimaryMode (r : Except PyErr (Json × BlissDevice)) : Option Json :=
  match outboundSettings r with
  | some s =>
    match jsonLoads s with
    | some (.obj fs) =>
      match jsonLookup fs (cs "primary") with
      | some (.obj pfs) => jsonLookup pfs (cs "mode")
      | _ => none
    | _ => none
  | none => none

/-- The in-memory mode of the device after a successful setter call. -/
def resultDeviceMode : Except PyErr (Json × BlissDevice) → Option Json
  | .ok (_, d) => some d.mode
  | _ => none

/-- A template device as the facade builds it from a parsed record. -/
def baseDevice : BlissDevice :=
  { handle := .num 1, name := .str (cs "Living"),
    temperature := .str (cs "N/A"), humidity := .str (cs "N/A"),
    set_point := .str (cs "N/A"), manual_set_point := .str (cs "N/A"),
    mode := .str (cs "AUTO"), mode_setting := .str (cs "N/A"),
    wifi_level := .str (cs "N/A"), battery_level := .str (cs "N/A"),
    status := .str (cs "N/A"), serial_number := .str (cs "S1"),
    model := .str (cs "BLISS2"), role := .null, house_handle := .null,
    gateway_handle := .null, is_deleted := .bool false,
    tag := .str (cs "BLISS2"), channel := .null,
    settings := .str (cs "\x7b\x7d"), measures := .str (cs "\x7b\x7d"),
    schedules := .str (cs "[]") }

/-- A BLISS1 (family A) device whose settings carry a mode field. -/
def devBliss1 : BlissDevice :=
  { baseDevice with
      model := .str (cs "BLISS1")
      tag := .str (cs "BLISS1")
      settings := .str (cs "\x7b\"mode\":\"OFF\"\x7d") }

/-- A BLISS2 device whose settings hold a primary object with a non-null
manualSetPoint. -/
def devBliss2Manual : BlissDevice :=
  { baseDevice with
      settings := .str (cs "\x7b\"primary\":\x7b\"mode\":\"AUTO\",\"manualSetPoint\":\x7b\"unit\":\"C\",\"value\":200,\"preset\":0\x7d\x7d\x7d") }

/-- A device whose settings object has a key but no primary member. -/
def devExtraKey : BlissDevice :=
  { baseDevice with settings := .str (cs "\x7b\"a\":1\x7d") }

/-- A device whose settings string holds a bare (non-object) JSON value. -/
def devNumSettings : BlissDevice :=
  { baseDevice with settings := .str (cs "5") }

/-- A BLISS1 device whose settings string is not valid JSON. -/
def devBadSettings : BlissDevice :=
  { baseDevice with
      model := .str (cs "BLISS1")
      tag := .str (cs "BLISS1")
      settings := .str (cs "x") }

/-- A BLISS1 device whose settings string carries whitespace. -/
def devSpacedSettings : BlissDevice :=
  { baseDevice with
      model := .str (cs "BLISS1")
      tag := .str (cs "BLISS1")
      settings := .str (cs "\x7b\"mode\": \"OFF\"\x7d") }

/-- A SyncRequest frame whose single argument carries a serverPayload and
optionally a serverSyncVersion. -/
def syncPayloadFrame (ver : Option Json) : Json :=
  .obj [(cs "target", .str (cs "SyncRequest")),
        (cs "arguments", .arr [.obj
          ((match ver with
            | some v => [(cs "serverSyncVersion", v)]
            | none => ([] : List (List Char × Json))) ++
           [(cs "serverPayload", .str (cs "\x7b\x7d"))])])]

/-- A SyncRequest frame whose single argument carries just a
serverSyncVersion (a setter acknowledgement). -/
def syncAckFrame (v : Json) : Json :=
  .obj [(cs "target", .str (cs "SyncRequest")),
        (cs "arguments", .arr [.obj [(cs "serverSyncVersion", v)]])]

/-- An active sync operation whose bounded acknowledgement window observes
the integer version w as its first match and whose follow-up refresh
observes no sync frame (so it times out, which send_operation swallows). -/
def activeAckedWith (op : SyncOp) (w : Int) : Prop :=
  ∃ dd ack refresh, op = .active dd ack refresh ∧
    (∃ fs, dd = .obj fs) ∧
    scanAck (ack.take 3) = .ok (some (.num (w : Rat))) ∧
    scanMsgs refresh = .ok none

/-- The payload string of the passive sync scenario in the spec. -/
def c5Payload : List Char :=
  cs "\x7b\"devices\":[\x7b\"tag\":\"BLISS2\",\"serialNumber\":\"S1\",\"measures\":\"\x7b\\\"temperature\\\":\x7b\\\"value\\\":235\x7d,\\\"mode\\\":1\x7d\",\"settings\":\"\x7b\\\"primary\\\":\x7b\\\"mode\\\":\\\"AUTO\\\"\x7d\x7d\",\"schedules\":\"[]\",\"handle\":1,\"name\":\"Living\"\x7d]\x7d"

/-- The normalized record that payload parses to. -/
def c5Record : DeviceRecord :=
  { name := .str (cs "Living"), handle := .num 1,
    serial_number := .str (cs "S1"), model := .str (cs "BLISS2"),
    mode := .str (cs "AUTO"), status := .str (cs "N/A"),
    temperature := .num (Rat.divInt 47 2), humidity := .str (cs "N/A"),
    set_point := .str (cs "N/A"), manual_set_point := .str (cs "N/A"),
    mode_setting := .str (cs "AUTO"), wifi_level := .str (cs "N/A"),
    battery_level := .str (cs "N/A"), role := .null, house_handle := .null,
    gateway_handle := .null, is_deleted := .bool false,
    tag := .str (cs "BLISS2"), channel := .null,
    settings := .str (cs "\x7b\"primary\":\x7b\"mode\":\"AUTO\"\x7d\x7d"),
    measures := .str (cs "\x7b\"temperature\":\x7b\"value\":235\x7d,\"mode\":1\x7d"),
    schedules := .str (cs "[]") }

/-- Precondition under which the MANUAL branch of set_mode completes:
either the primary object already holds a non-null manualSetPoint, or the
fallback `int((set_point or 18.0) * 10)` evaluates without raising. -/
def manualBranchOk (d : BlissDevice) (pfs : List (List Char × Json)) : Prop :=
  (∃ m, jsonLookup pfs (cs "manualSetPoint") = some m ∧ m ≠ .null) ∨
  (∃ n, pyTimes10Int (pyOr d.set_point (.num 18)) = .ok n)

/-- The primary object set_setpoint installs for target 21.0 degrees. -/
def spPrimaryObj : Json :=
  .obj [(cs "mode", .str (cs "MANUAL")),
        (cs "manualSetPoint", .obj [(cs "unit", .str (cs "C")),
          (cs "value", .num 210), (cs "preset", .num 0)])]

/-- The serialized form of that primary member inside the settings string. -/
def spPrimaryChars : List Char :=
  cs "\"primary\":\x7b\"mode\":\"MANUAL\",\"manualSetPoint\":\x7b\"unit\":\"C\",\"value\":210,\"preset\":0\x7d\x7d"

/-- The same member wrapped in braces of its own, as the spec scenario
writes it. -/
def spBracedChars : List Char :=
  '\x7b' :: spPrimaryChars ++ ['\x7d']

/-!
Helper lemmas.
-/

theorem ratDiv10_eq (q : Rat) : ratDiv10 q = q / 10 := by
  rw [ratDiv10, Rat.divInt_eq_div]
  push_cast
  rw [div_mul_eq_div_div, Rat.num_div_den]

theorem splitRS_ne_nil (s : List Char) : splitRS s ≠ [] := by
  induction s with
  | nil => simp [splitRS]
  | cons c rest ih =>
    rw [splitRS]
    by_cases h : c = recordSep
    · simp [h]
    · simp only [h, if_false]
      cases hs : splitRS rest with
      | nil => exact absurd hs ih
      | cons a as => simp

theorem splitRS_append_sep (s1 s2 : List Char) :
    splitRS (s1 ++ recordSep :: s2) = splitRS s1 ++ splitRS s2 := by
  induction s1 with
  | nil => simp [splitRS]
  | cons c rest ih =>
    by_cases h : c = recordSep
    · simp [splitRS, h, ih]
    · cases hs : splitRS rest with
      | nil => exact absurd hs (splitRS_ne_nil rest)
      | cons a as => simp [splitRS, h, ih, hs]

theorem splitRS_no_sep (s : List Char) (h : recordSep ∉ s) : splitRS s = [s] := by
  induction s with
  | nil => rfl
  | cons c rest ih =>
    have hc : ¬ c = recordSep := fun hh => h (hh ▸ List.mem_cons_self c rest)
    have hr : recordSep ∉ rest := fun hh => h (List.mem_cons_of_mem c hh)
    rw [splitRS]
    simp [hc, ih hr]

theorem jsonLookup_objInsert_self (fs : List (List Char × Json)) (k : List Char) (v : Json) :
    jsonLookup (objInsert fs k v) k = some v := by
  induction fs with
  | nil => simp [objInsert, jsonLookup]
  | cons a rest ih =>
    by_cases h : a.1 = k
    · simp [objInsert, jsonLookup, h]
    · simp [objInsert, jsonLookup, h, ih]

theorem jsonLookup_objInsert_ne (fs : List (List Char × Json)) (k : List Char) (v : Json)
    (k2 : List Char) (h : k ≠ k2) :
    jsonLookup (objInsert fs k v) k2 = jsonLookup fs k2 := by
  induction fs with
  | nil => simp [objInsert, jsonLookup, h]
  | cons a rest ih =>
    by_cases h1 : a.1 = k
    · simp [objInsert, jsonLookup, h1, h]
    · simp [objInsert, jsonLookup, h1, ih]

theorem objErase_cons (a : List Char × Json) (rest : List (List Char × Json))
    (k : List Char) :
    objErase (a :: rest) k =
      if a.1 = k then objErase rest k else a :: objErase rest k := by
  by_cases h : a.1 = k <;> simp [objErase, h]

theorem jsonLookup_objErase_self (fs : List (List Char × Json)) (k : List Char) :
    jsonLookup (objErase fs k) k = none := by
  induction fs with
  | nil => simp [objErase, jsonLookup]
  | cons a rest ih =>
    rw [objErase_cons]
    by_cases h : a.1 = k
    · simpa [h] using ih
    · simpa [jsonLookup, h] using ih

theorem jsonLookup_objErase_ne (fs : List (List Char × Json)) (k k2 : List Char)
    (h : k ≠ k2) : jsonLookup (objErase fs k) k2 = jsonLookup fs k2 := by
  induction fs with
  | nil => simp [objErase, jsonLookup]
  | cons a rest ih =>
    rw [objErase_cons]
    by_cases h1 : a.1 = k
    · have h2 : ¬ a.1 = k2 := by rw [h1]; exact h
      rw [if_pos h1, ih]
      simp [jsonLookup, h2]
    · rw [if_neg h1]
      simp [jsonLookup, ih]

theorem objErase_of_lookup_none (fs : List (List Char × Json)) (k : List Char)
    (h : jsonLookup fs k = none) : objErase fs k = fs := by
  induction fs with
  | nil => rfl
  | cons a rest ih =>
    rw [jsonLookup] at h
    by_cases h1 : a.1 = k
    · simp [h1] at h
    · simp only [h1, if_false] at h
      rw [objErase_cons]
      simp [h1, ih h]

theorem objInsert_of_lookup_none (fs : List (List Char × Json)) (k : List Char) (v : Json)
    (h : jsonLookup fs k = none) : objInsert fs k v = fs ++ [(k, v)] := by
  induction fs with
  | nil => rfl
  | cons a rest ih =>
    rw [jsonLookup] at h
    by_cases h1 : a.1 = k
    · simp [h1] at h
    · simp only [h1, if_false] at h
      simp [objInsert, h1, ih h]

theorem objInsert_append_last (fs : List (List Char × Json)) (k : List Char) (v w : Json)
    (h : jsonLookup fs k = none) : objInsert (fs ++ [(k, v)]) k w = fs ++ [(k, w)] := by
  induction fs with
  | nil => simp [objInsert]
  | cons a rest ih =>
    rw [jsonLookup] at h
    by_cases h1 : a.1 = k
    · simp [h1] at h
    · simp only [h1, if_false] at h
      simp [objInsert, h1, ih h]

theorem objErase_append_ne (fs : List (List Char × Json)) (k : List Char) (v : Json)
    (k2 : List Char) (h : k ≠ k2) :
    objErase (fs ++ [(k, v)]) k2 = objErase fs k2 ++ [(k, v)] := by
  induction fs with
  | nil => simp [objErase_cons, objErase, h]
  | cons a rest ih =>
    rw [List.cons_append, objErase_cons, objErase_cons]
    by_cases h1 : a.1 = k2 <;> simp [h1, ih]

theorem jsonLookup_append (l1 l2 : List (List Char × Json)) (k : List Char) :
    jsonLookup (l1 ++ l2) k =
      (match jsonLookup l1 k with
       | some v => some v
       | none => jsonLookup l2 k) := by
  induction l1 with
  | nil => simp [jsonLookup]
  | cons a rest ih =>
    by_cases h : a.1 = k
    · simp [jsonLookup, h]
    · simp [jsonLookup, h, ih]

theorem dumpFields_append_last (l : List (List Char × Json)) (k : List Char) (v : Json) :
    ∃ pre, jsonDumps (.obj (l ++ [(k, v)])) =
      pre ++ (dumpStr k ++ ':' :: jsonDumps v) ++ ['\x7d'] := by
  suffices h : ∃ pre, dumpFields (l ++ [(k, v)]) = pre ++ (dumpStr k ++ ':' :: jsonDumps v) by
    obtain ⟨pre, hp⟩ := h
    exact ⟨'\x7b' :: pre, by simp [jsonDumps, hp]⟩
  induction l with
  | nil => exact ⟨[], by simp [dumpFields]⟩
  | cons a rest ih =>
    obtain ⟨pre, hp⟩ := ih
    cases rest with
    | nil =>
      exact ⟨dumpStr a.1 ++ ':' :: jsonDumps a.2 ++ [','], by simp [dumpFields, hp]⟩
    | cons b rest2 =>
      refine ⟨dumpStr a.1 ++ ':' :: jsonDumps a.2 ++ ',' :: pre, ?_⟩
      rw [List.cons_append] at hp
      simp only [List.cons_append, dumpFields, List.append_eq]
      rw [hp]
      simp

theorem blank_no_sep (s : List Char) (h : isBlankSeg s = true) : recordSep ∉ s := by
  intro hm
  have hall := List.all_eq_true.mp h _ hm
  exact absurd hall (by decide)

/-!
Claim theorems and their witnesses.
-/

/-- C4: frame codec round-trip and stream behaviour. With `loads` and
`dumps` standing for json.loads/json.dumps, and given the library
guarantees that serialization round-trips on the JSON-serializable value
x, never emits a raw record separator and is never blank, decoding the
encoding of x yields exactly the one-element sequence holding x; moreover
decode splits raw text on the record separator, skips blank segments, and
drops a segment that fails to parse without aborting the remaining
segments of the same message. -/
theorem C4_frame_codec (loads : List Char → Option Json) (dumps : Json → List Char)
    (x : Json) (hround : loads (dumps x) = some x)
    (hnosep : recordSep ∉ dumps x) (hnoblank : isBlankSeg (dumps x) = false) :
    decodeFrames loads (encodeFrame dumps x) = [x] ∧
    (∀ s1 s2, decodeFrames loads (s1 ++ recordSep :: s2) =
      decodeFrames loads s1 ++ decodeFrames loads s2) ∧
    (∀ s, isBlankSeg s = true → decodeFrames loads (s ++ [recordSep]) = []) ∧
    (∀ bad tail, recordSep ∉ bad → loads bad = none →
      decodeFrames loads (bad ++ recordSep :: tail) = decodeFrames loads tail) := by
  have hsplit : ∀ s1 s2, decodeFrames loads (s1 ++ recordSep :: s2) =
      decodeFrames loads s1 ++ decodeFrames loads s2 := by
    intro s1 s2
    rw [decodeFrames, decodeFrames, decodeFrames, splitRS_append_sep,
      List.filterMap_append]
  have hone : ∀ s, recordSep ∉ s → decodeFrames loads s =
      (if isBlankSeg s then none else loads s).toList := by
    intro s hs
    rw [decodeFrames, splitRS_no_sep _ hs]
    cases h : (if isBlankSeg s then none else loads s) with
    | none => simp [List.filterMap, h]
    | some v => simp [List.filterMap, h]
  refine ⟨?_, hsplit, ?_, ?_⟩
  · have henc : encodeFrame dumps x = dumps x ++ recordSep :: [] := rfl
    rw [henc, hsplit, hone _ hnosep, hnoblank]
    simp [decodeFrames, splitRS, isBlankSeg, hround]
  · intro s hs
    have happ : s ++ [recordSep] = s ++ recordSep :: [] := rfl
    rw [happ, hsplit, hone _ (blank_no_sep s hs), hs]
    simp [decodeFrames, splitRS, isBlankSeg]
  · intro bad tail hb hl
    rw [hsplit, hone _ hb]
    by_cases hblank : isBlankSeg bad <;> simp [hblank, hl]

/-- Witness for C4: the concrete executable json model on a concrete
object round-trips through the frame codec. -/
theorem C4_witness :
    decodeFrames jsonLoads (encodeFrame jsonDumps
      (.obj [(cs "a", .num 1), (cs "b", .arr [.bool true, .null, .str (cs "x")])])) =
    [.obj [(cs "a", .num 1), (cs "b", .arr [.bool true, .null, .str (cs "x")])]] :=
  (C4_frame_codec jsonLoads jsonDumps _ (by decide) (by decide) (by decide)).1

/-- C7 (amended): parse_temperature and parse_set_point divide numeric
readings (given directly or under a value member) by ten exactly; every
missing and every non-numeric, non-boolean value — whether it is the
whole input (a string, null or an array) or sits under the value member
of a dict (null, a string, an array or a nested dict there) — gives the
explicit "N/A" sentinel; the functions are total, so no exception is
possible; but a JSON boolean, being a Python int subtype, is coerced
instead of rejected (true becomes 0.1, not the sentinel), bare or under
the value member alike. -/
theorem C7_tenths_conversion :
    (∀ q : Rat, parse_temperature (.num q) = .num (q / 10) ∧
      parse_set_point (.num q) = .num (q / 10)) ∧
    (∀ fs q, jsonLookup fs (cs "value") = some (.num q) →
      parse_temperature (.obj fs) = .num (q / 10) ∧
      parse_set_point (.obj fs) = .num (q / 10)) ∧
    (∀ fs, jsonLookup fs (cs "value") = none →
      parse_temperature (.obj fs) = .str (cs "N/A") ∧
      parse_set_point (.obj fs) = .str (cs "N/A")) ∧
    (∀ fs v, jsonLookup fs (cs "value") = some v →
      (∀ q, v ≠ .num q) → (∀ b, v ≠ .bool b) →
      parse_temperature (.obj fs) = .str (cs "N/A") ∧
      parse_set_point (.obj fs) = .str (cs "N/A")) ∧
    (∀ s, parse_temperature (.str s) = .str (cs "N/A") ∧
      parse_set_point (.str s) = .str (cs "N/A")) ∧
    (parse_temperature .null = .str (cs "N/A") ∧
      parse_set_point .null = .str (cs "N/A")) ∧
    (∀ xs, parse_temperature (.arr xs) = .str (cs "N/A") ∧
      parse_set_point (.arr xs) = .str (cs "N/A")) ∧
    (∀ b, parse_temperature (.bool b) = .num (if b then (1 : Rat) / 10 else 0) ∧
      parse_set_point (.bool b) = .num (if b then (1 : Rat) / 10 else 0)) ∧
    (∀ fs b, jsonLookup fs (cs "value") = some (.bool b) →
      parse_temperature (.obj fs) = .num (if b then (1 : Rat) / 10 else 0) ∧
      parse_set_point (.obj fs) = .num (if b then (1 : Rat) / 10 else 0)) := by
  refine ⟨?_, ?_, ?_, ?_, ?_, ?_, ?_, ?_, ?_⟩
  · intro q
    constructor <;>
      simp [parse_temperature, parse_set_point, isNumericPy, numValPy, ratDiv10_eq]
  · intro fs q h
    constructor <;>
      simp [parse_temperature, parse_set_point, h, isNumericPy, numValPy, ratDiv10_eq]
  · intro fs h
    constructor <;> simp [parse_temperature, parse_set_point, h, isNumericPy]
  · intro fs v hv hq hb
    have hnn : isNumericPy v = false := by
      cases v <;> first
        | rfl
        | exact absurd rfl (hq _)
        | exact absurd rfl (hb _)
    constructor <;> simp [parse_temperature, parse_set_point, hv, hnn]
  · intro s
    constructor <;> simp [parse_temperature, parse_set_point, isNumericPy]
  · constructor <;> simp [parse_temperature, parse_set_point, isNumericPy]
  · intro xs
    constructor <;> simp [parse_temperature, parse_set_point, isNumericPy]
  · intro b
    constructor <;>
      cases b <;>
        simp [parse_temperature, parse_set_point, isNumericPy, numValPy, ratDiv10_eq]
  · intro fs b h
    constructor <;>
      cases b <;>
        simp [parse_temperature, parse_set_point, h, isNumericPy, numValPy, ratDiv10_eq]

/-- Witness for C7: raw 235 converts to 23.5, bare and under a value
member, and a null under the value member gives the sentinel. -/
theorem C7_witness :
    parse_temperature (.num 235) = .num (235 / 10) ∧
    parse_set_point (.obj [(cs "value", .num 235)]) = .num (235 / 10) ∧
    parse_temperature (.obj [(cs "value", .null)]) = .str (cs "N/A") :=
  ⟨(C7_tenths_conversion.1 235).1,
   (C7_tenths_conversion.2.1 [(cs "value", .num 235)] 235 (by decide)).2,
   (C7_tenths_conversion.2.2.2.1 [(cs "value", .null)] .null (by decide)
     (fun q h => Json.noConfusion h) (fun b h => Json.noConfusion h)).1⟩

/-- Counterexample for C7 as stated: a JSON boolean is not numeric, yet
parse_temperature maps a true reading to 0.1 (Python treats bool as an
int subtype), not to the "N/A" sentinel. -/
theorem C7_counterexample :
    parse_temperature (.obj [(cs "value", .bool true)]) = .num (Rat.divInt 1 10) ∧
    (Rat.divInt 1 10 : Rat) = 1 / 10 ∧
    parse_temperature (.obj [(cs "value", .bool true)]) ≠ .str (cs "N/A") := by
  refine ⟨by decide, ?_, by decide⟩
  rw [Rat.divInt_eq_div]
  norm_num

/-- C8: a receive timeout during passive sync (the incoming stream
exhausted with no frame carrying a non-null serverPayload) surfaces the
timeout error and leaves the tracked serverSyncVersion exactly as it was
before the call. -/
theorem C8_passive_timeout_preserves_version (st : ClientState)
    (msgs : List (List Json)) (h : scanMsgs msgs = .ok none) :
    (get_devices st msgs).2.2 = .error .timeout ∧
    (get_devices st msgs).1.version = st.version := by
  simp [get_devices, h]

/-- Witness for C8: an empty stream times out and the version persists. -/
theorem C8_witness :
    scanMsgs ([] : List (List Json)) = .ok none ∧
    (get_devices initialClientState []).2.2 = .error .timeout ∧
    (get_devices initialClientState []).1.version = initialClientState.version :=
  ⟨by decide,
   (C8_passive_timeout_preserves_version initialClientState [] (by decide)).1,
   (C8_passive_timeout_preserves_version initialClientState [] (by decide)).2⟩

/-- C5: the passive-sync scenario payload parses to exactly one
normalized record, with temperature 23.5 (the exact rational 47/2), mode
AUTO (the numeric code 1), and model BLISS2. -/
theorem C5_passive_payload_scenario :
    parse_device_data (.str c5Payload) = .ok [c5Record] ∧
    c5Record.temperature = .num (Rat.divInt 47 2) ∧
    (Rat.divInt 47 2 : Rat) = 23.5 ∧
    c5Record.mode = .str (cs "AUTO") ∧
    c5Record.model = .str (cs "BLISS2") := by
  refine ⟨by decide, by decide, ?_, by decide, by decide⟩
  rw [Rat.divInt_eq_div]
  norm_num

theorem get_devices_sent (st : ClientState) (msgs : List (List Json)) :
    (get_devices st msgs).2.1 = [passiveSyncReq] := by
  cases h : scanMsgs msgs with
  | error e => simp [get_devices, h]
  | ok o =>
    cases o with
    | none => simp [get_devices, h]
    | some r => cases r with | mk a b => simp [get_devices, h]

theorem stepOp_active_acked (st : ClientState) (op : SyncOp) (w : Int)
    (hws : st.wsConnected = true) (h : activeAckedWith op w) :
    stepOp st op = { version := .num (w : Rat), wsConnected := true } := by
  obtain ⟨dd, ack, refresh, rfl, ⟨fs, rfl⟩, hack, hrefresh⟩ := h
  simp [stepOp, send_operation, hws, preparePayload, hack, get_devices, hrefresh]

theorem runOps_all_acked (ops : List SyncOp) (v : Nat → Int) (st : ClientState)
    (hws : st.wsConnected = true)
    (hacks : ∀ i (h : i < ops.length), activeAckedWith (ops.get ⟨i, h⟩) (v i)) :
    (runOps st ops).version = (match ops.length with
      | 0 => st.version
      | n + 1 => .num ((v n : Int) : Rat)) ∧
    (runOps st ops).wsConnected = true := by
  induction ops generalizing v st with
  | nil => exact ⟨rfl, hws⟩
  | cons op rest ih =>
    have h0 : activeAckedWith op (v 0) := by
      have := hacks 0 (by simp)
      simpa using this
    have hstep := stepOp_active_acked st op (v 0) hws h0
    have hrest : ∀ i (h : i < rest.length),
        activeAckedWith (rest.get ⟨i, h⟩) (v (i + 1)) := by
      intro i h
      have := hacks (i + 1) (by simpa using Nat.succ_lt_succ h)
      simpa using this
    have hmain := ih (fun i => v (i + 1)) (stepOp st op) (by rw [hstep]) hrest
    have hrun : runOps st (op :: rest) = runOps (stepOp st op) rest := by
      simp [runOps]
    rcases hmain with ⟨h1, h2⟩
    rw [hrun]
    refine ⟨?_, h2⟩
    rw [h1]
    cases hrl : rest.length with
    | zero => simp [hstep, hrl]
    | succ n => simp [hrl]

/-- C1 (amended): SyncState's tracked serverSyncVersion starts at 0, and
after N active syncs each acknowledged with a strictly increasing version
(each post-write refresh observing no further sync frame) the tracked
version equals the last acknowledged value, never an older one. General
monotonicity over arbitrary operation sequences does not hold (see the
counterexample): every observed acknowledgement overwrites the tracked
version outright, and a passive acknowledgement lacking the
serverSyncVersion field resets it to the get-default 0. -/
theorem C1_version_tracks_last_ack (N : Nat) (v : Nat → Int) (ops : List SyncOp)
    (st : ClientState) (hst : st.version = .num 0) (hws : st.wsConnected = true)
    (hlen : ops.length = N) (hN : 0 < N)
    (hmono : ∀ i j, i < j → j < N → v i < v j)
    (hacks : ∀ i (h : i < ops.length), activeAckedWith (ops.get ⟨i, h⟩) (v i)) :
    initialClientState.version = .num 0 ∧
    (runOps st ops).version = .num ((v (N - 1) : Int) : Rat) := by
  refine ⟨rfl, ?_⟩
  have hmain := (runOps_all_acked ops v st hws hacks).1
  rw [hmain, hlen]
  cases N with
  | zero => exact absurd hN (by simp)
  | succ n => simp

/-- Witness for C1: two active syncs acknowledged with versions 3 and 7
from a connected client with version 0 end with the tracked version 7. -/
theorem C1_witness :
    initialClientState.version = .num 0 ∧
    (runOps { version := .num 0, wsConnected := true }
      [.active (.obj []) [[syncAckFrame (.num 3)]] [],
       .active (.obj []) [[syncAckFrame (.num 7)]] []]).version =
      .num ((7 : Int) : Rat) :=
  C1_version_tracks_last_ack 2 (fun i => if i = 0 then 3 else 7)
    [.active (.obj []) [[syncAckFrame (.num 3)]] [],
     .active (.obj []) [[syncAckFrame (.num 7)]] []]
    { version := .num 0, wsConnected := true } rfl rfl rfl (by decide)
    (by intro i j hij hj2; interval_cases j <;> interval_cases i <;> simp_all)
    (by
      intro i h
      match i, h with
      | 0, _ => exact ⟨_, _, _, rfl, ⟨[], rfl⟩, by decide, by decide⟩
      | 1, _ => exact ⟨_, _, _, rfl, ⟨[], rfl⟩, by decide, by decide⟩)

/-- Counterexample for C1 as stated: from a fresh client, a passive sync
acknowledged with version 5 followed by a passive sync whose
payload-carrying argument lacks the serverSyncVersion field leaves the
tracked version at 0 (the arg.get default), strictly below its previous
value 5 — the tracked version does not only move forward. -/
theorem C1_counterexample :
    (runOps initialClientState
      [.passive [[syncPayloadFrame (some (.num 5))]]]).version = .num 5 ∧
    (runOps initialClientState [.passive [[syncPayloadFrame (some (.num 5))]],
      .passive [[syncPayloadFrame none]]]).version = .num 0 ∧
    ¬ ((5 : Rat) ≤ 0) :=
  ⟨by decide, by decide, by norm_num⟩

/-- C2 (amended): when an active sync observes a new serverSyncVersion
within the bounded acknowledgement window, the engine issues exactly one
follow-up passive sync — whose request carries the hard-coded zero sync
versions of the passive format, not the freshest known version; when no
acknowledgement is observed, the write counts as sent and no refresh is
issued. -/
theorem C2_post_write_refresh (st : ClientState) (fs : List (List Char × Json))
    (opk : List Char) (n : Nat) (ackMsgs refreshMsgs : List (List Json))
    (hws : st.wsConnected = true) :
    (∀ w, scanAck (ackMsgs.take n) = .ok (some w) →
      (send_operation st (.obj fs) opk n ackMsgs refreshMsgs).2.1 =
        [activeReqFor st (.obj (prepareFields fs)) opk, passiveSyncReq] ∧
      passiveSyncReq.status = cs "SYNC" ∧
      passiveSyncReq.clientSyncVersion = .num 0) ∧
    (scanAck (ackMsgs.take n) = .ok none →
      (send_operation st (.obj fs) opk n ackMsgs refreshMsgs).2.1 =
        [activeReqFor st (.obj (prepareFields fs)) opk]) := by
  constructor
  · intro w hack
    refine ⟨?_, rfl, rfl⟩
    simp [send_operation, hws, preparePayload, hack, get_devices_sent]
  · intro hack
    simp [send_operation, hws, preparePayload, hack]

/-- Witness for C2: with an acknowledgement observed, the sent sequence
is the active request followed by the passive refresh; with none, it is
the active request alone. -/
theorem C2_witness :
    ((send_operation { version := .num 7, wsConnected := true } (.obj [])
        (cs "ALL") 3 [[syncAckFrame (.num 9)]] []).2.1 =
      [activeReqFor { version := .num 7, wsConnected := true }
        (.obj (prepareFields [])) (cs "ALL"), passiveSyncReq]) ∧
    ((send_operation { version := .num 7, wsConnected := true } (.obj [])
        (cs "ALL") 3 [] []).2.1 =
      [activeReqFor { version := .num 7, wsConnected := true }
        (.obj (prepareFields [])) (cs "ALL")]) :=
  ⟨((C2_post_write_refresh { version := .num 7, wsConnected := true } [] (cs "ALL") 3
      [[syncAckFrame (.num 9)]] [] rfl).1 (.num 9) (by decide)).1,
   (C2_post_write_refresh { version := .num 7, wsConnected := true } [] (cs "ALL") 3
      [] [] rfl).2 (by decide)⟩

/-- Counterexample for C2 as stated: an active sync that observes no
acknowledgement within the bounded window issues no follow-up passive
sync at all (only the ACTIVE request is sent); and when a refresh is
issued, its request carries clientSyncVersion 0, not the freshest known
version (9). -/
theorem C2_counterexample :
    ((send_operation { version := .num 7, wsConnected := true } (.obj [])
        (cs "ALL") 3 [] []).2.1).map SentReq.status = [cs "ACTIVE"] ∧
    ((send_operation { version := .num 7, wsConnected := true } (.obj [])
        (cs "ALL") 3 [[syncAckFrame (.num 9)]] []).2.1).map
        (fun r => (r.status, r.clientSyncVersion)) =
      [(cs "ACTIVE", .num 7), (cs "SYNC", .num 0)] ∧
    (Json.num 0 ≠ .num 9) :=
  ⟨by decide, by decide, by decide⟩

theorem except_bind_error {α β : Type} (e : PyErr) (f : α → Except PyErr β) :
    (Except.error e : Except PyErr α) >>= f = .error e := rfl

theorem except_bind_ok {α β : Type} (a : α) (f : α → Except PyErr β) :
    (Except.ok a : Except PyErr α) >>= f = f a := rfl

theorem except_map_error {α β : Type} (e : PyErr) (f : α → β) :
    (f <$> (Except.error e : Except PyErr α)) = .error e := rfl

theorem except_map_ok {α β : Type} (a : α) (f : α → β) :
    (f <$> (Except.ok a : Except PyErr α)) = .ok (f a) := rfl

theorem except_throw {α : Type} (e : PyErr) :
    (throw e : Except PyErr α) = .error e := rfl

theorem except_pure {α : Type} (a : α) :
    (pure a : Except PyErr α) = .ok a := rfl

/-- C9: for every BLISS2-family device whose settings string parses to an
object without a primary member, set_mode(device, "MANUAL") raises an
uncaught KeyError at the settings["primary"] subscription instead of
synthesizing the fallback manualSetPoint. -/
theorem C9_manual_without_primary_keyerror (d : BlissDevice) (s : List Char)
    (fs : List (List Char × Json))
    (hmodel : d.model = .str (cs "BLISS2") ∨ d.model = .str (cs "BLISS-HA"))
    (hset : d.settings = .str s)
    (hparse : jsonLoads s = some (.obj fs))
    (hnoprim : jsonLookup fs (cs "primary") = none) :
    set_mode true d (cs "MANUAL") = .error (.keyError (cs "primary")) := by
  have hmode : (cs "MANUAL").map Char.toUpper = cs "MANUAL" := by decide
  have hnotin : ¬ (cs "MANUAL" = cs "AUTO" ∨ cs "MANUAL" = cs "OFF" ∨
      cs "MANUAL" = cs "FROST" ∨ cs "MANUAL" = cs "ECO") := by decide
  unfold set_mode
  rcases hmodel with hm | hm <;>
    simp [hset, hparse, hmode, hm, hnotin, pyGetItem, hnoprim, except_bind_error]

/-- Witness for C9: a BLISS2 device whose settings are the empty object
raises KeyError "primary" on set_mode MANUAL. -/
theorem C9_witness :
    set_mode true baseDevice (cs "MANUAL") = .error (.keyError (cs "primary")) :=
  C9_manual_without_primary_keyerror baseDevice (cs "\x7b\x7d") []
    (Or.inl (by decide)) (by decide) (by decide) (by decide)

theorem deleteManualTimer_obj (fs : List (List Char × Json)) :
    deleteManualTimer (.obj fs) = .ok (.obj (objErase fs (cs "manualTimer"))) := by
  by_cases h : (jsonLookup fs (cs "manualTimer")).isSome
  · simp [deleteManualTimer, pyContainsKey, h, pyDelItem, except_bind_ok]
  · have hn : jsonLookup fs (cs "manualTimer") = none := by
      cases hh : jsonLookup fs (cs "manualTimer") <;> simp_all
    simp [deleteManualTimer, pyContainsKey, h, except_bind_ok, except_pure,
      objErase_of_lookup_none _ _ hn]

/-- C3 (amended): for every device of the BLISS2/BLISS-HA family whose
settings parse to an object holding a primary object, and for which the
MANUAL branch completes (a non-null manualSetPoint is already present or
the setpoint fallback converts), set_mode(device, "MANUAL") succeeds and
the serialized settings string carried in the outbound mutation — also
cached on the device — serializes an object with no manualTimer key whose
primary object's mode equals "MANUAL". -/
theorem C3_manual_mode_mutation (d : BlissDevice) (s : List Char)
    (fs pfs : List (List Char × Json))
    (hmodel : d.model = .str (cs "BLISS2") ∨ d.model = .str (cs "BLISS-HA"))
    (hset : d.settings = .str s)
    (hparse : jsonLoads s = some (.obj fs))
    (hprim : jsonLookup fs (cs "primary") = some (.obj pfs))
    (hok : manualBranchOk d pfs) :
    ∃ fs', set_mode true d (cs "MANUAL") =
      .ok (deviceDataToSend d (jsonDumps (.obj fs')),
           { d with settings := .str (jsonDumps (.obj fs')), mode := .str (cs "MANUAL") }) ∧
      jsonLookup fs' (cs "manualTimer") = none ∧
      ∃ pfs', jsonLookup fs' (cs "primary") = some (.obj pfs') ∧
        jsonLookup pfs' (cs "mode") = some (.str (cs "MANUAL")) := by
  have hmode : (cs "MANUAL").map Char.toUpper = cs "MANUAL" := by decide
  have hnotin : ¬ (cs "MANUAL" = cs "AUTO" ∨ cs "MANUAL" = cs "OFF" ∨
      cs "MANUAL" = cs "FROST" ∨ cs "MANUAL" = cs "ECO") := by decide
  have hne : cs "manualTimer" ≠ cs "primary" := by decide
  by_cases hmsp : (jsonLookup pfs (cs "manualSetPoint")).getD .null = .null
  · obtain ⟨n, hn⟩ : ∃ n, pyTimes10Int (pyOr d.set_point (.num 18)) = .ok n := by
      rcases hok with ⟨m, hm1, hm2⟩ | h
      · rw [hm1] at hmsp
        exact absurd hmsp hm2
      · exact h
    refine ⟨objErase (objInsert fs (cs "primary")
        (.obj (objInsert (objInsert pfs (cs "manualSetPoint")
          (.obj [(cs "unit", .str (cs "C")), (cs "value", .num (n : Rat)),
                 (cs "preset", .num 0)]))
          (cs "mode") (.str (cs "MANUAL"))))) (cs "manualTimer"),
      ?_, jsonLookup_objErase_self _ _,
      objInsert (objInsert pfs (cs "manualSetPoint")
          (.obj [(cs "unit", .str (cs "C")), (cs "value", .num (n : Rat)),
                 (cs "preset", .num 0)]))
          (cs "mode") (.str (cs "MANUAL")), ?_, jsonLookup_objInsert_self _ _ _⟩
    · unfold set_mode
      rcases hmodel with hm | hm <;>
        simp [hset, hparse, hmode, hm, hnotin, pyGetItem, hprim, pyGet, hmsp, hn,
          pySetItem, deleteManualTimer_obj, except_bind_ok, except_pure]
    · rw [jsonLookup_objErase_ne _ _ _ hne, jsonLookup_objInsert_self]
  · refine ⟨objErase (objInsert fs (cs "primary")
        (.obj (objInsert pfs (cs "mode") (.str (cs "MANUAL"))))) (cs "manualTimer"),
      ?_, jsonLookup_objErase_self _ _,
      objInsert pfs (cs "mode") (.str (cs "MANUAL")), ?_,
      jsonLookup_objInsert_self _ _ _⟩
    · unfold set_mode
      rcases hmodel with hm | hm <;>
        simp [hset, hparse, hmode, hm, hnotin, pyGetItem, hprim, pyGet, hmsp,
          pySetItem, deleteManualTimer_obj, except_bind_ok, except_pure]
    · rw [jsonLookup_objErase_ne _ _ _ hne, jsonLookup_objInsert_self]

/-- Witness for C3: a BLISS2 device whose settings hold a primary object
with a non-null manualSetPoint. -/
theorem C3_witness :
    ∃ fs', set_mode true devBliss2Manual (cs "MANUAL") =
      .ok (deviceDataToSend devBliss2Manual (jsonDumps (.obj fs')),
           { devBliss2Manual with
               settings := .str (jsonDumps (.obj fs'))
               mode := .str (cs "MANUAL") }) ∧
      jsonLookup fs' (cs "manualTimer") = none ∧
      ∃ pfs', jsonLookup fs' (cs "primary") = some (.obj pfs') ∧
        jsonLookup pfs' (cs "mode") = some (.str (cs "MANUAL")) :=
  C3_manual_mode_mutation devBliss2Manual
    (cs "\x7b\"primary\":\x7b\"mode\":\"AUTO\",\"manualSetPoint\":\x7b\"unit\":\"C\",\"value\":200,\"preset\":0\x7d\x7d\x7d")
    [(cs "primary", .obj [(cs "mode", .str (cs "AUTO")),
        (cs "manualSetPoint", .obj [(cs "unit", .str (cs "C")),
          (cs "value", .num 200), (cs "preset", .num 0)])])]
    [(cs "mode", .str (cs "AUTO")),
     (cs "manualSetPoint", .obj [(cs "unit", .str (cs "C")),
       (cs "value", .num 200), (cs "preset", .num 0)])]
    (Or.inl (by decide)) (by decide) (by decide) (by decide)
    (Or.inl ⟨.obj [(cs "unit", .str (cs "C")), (cs "value", .num 200),
      (cs "preset", .num 0)], by decide, by decide⟩)

/-- Counterexample for C3 as stated: for a BLISS1 device (a model outside
the BLISS2/BLISS-HA family) set_mode(device, "MANUAL") completes, yet the
settings string carried in the outbound mutation holds no primary object,
so its primary mode field is not "MANUAL". -/
theorem C3_counterexample :
    exceptOk (set_mode true devBliss1 (cs "MANUAL")) = true ∧
    outboundPrimaryMode (set_mode true devBliss1 (cs "MANUAL")) = none ∧
    outboundPrimaryMode (set_mode true devBliss1 (cs "MANUAL")) ≠
      some (.str (cs "MANUAL")) :=
  ⟨by decide, by decide, by decide⟩

/-- C6 (amended): for every device whose current settings load to an
object with no primary member (an unparseable or non-string settings
value loads as the empty object), set_setpoint(device, 21.0) succeeds and
produces a settings string serializing an object whose final member maps
"primary" to exactly the scenario object (mode MANUAL, manualSetPoint of
unit C, value 210, preset 0) with no manualTimer key; the serialized
member appears verbatim in the string followed by the closing brace — the
braces wrapped around it in the spec's scenario belong to the enclosing
settings object, so they only both appear around the member when primary
is the sole key. -/
theorem C6_setpoint_synthesizes_primary (d : BlissDevice)
    (fs : List (List Char × Json))
    (hload : loadedSettings d = .obj fs)
    (hnoprim : jsonLookup fs (cs "primary") = none) :
    set_setpoint true d 21 =
      .ok (deviceDataToSend d (jsonDumps (.obj (objErase fs (cs "manualTimer") ++
             [(cs "primary", spPrimaryObj)]))),
           { d with
               settings := .str (jsonDumps (.obj (objErase fs (cs "manualTimer") ++
                 [(cs "primary", spPrimaryObj)])))
               set_point := .num 21 }) ∧
    jsonLookup (objErase fs (cs "manualTimer") ++ [(cs "primary", spPrimaryObj)])
      (cs "manualTimer") = none ∧
    jsonLookup (objErase fs (cs "manualTimer") ++ [(cs "primary", spPrimaryObj)])
      (cs "primary") = some spPrimaryObj ∧
    (∃ pre, jsonDumps (.obj (objErase fs (cs "manualTimer") ++
       [(cs "primary", spPrimaryObj)])) = pre ++ spPrimaryChars ++ ['\x7d']) := by
  have hne1 : cs "primary" ≠ cs "manualTimer" := by decide
  have hne2 : cs "manualTimer" ≠ cs "primary" := by decide
  have hne3 : ¬ (cs "mode" = cs "manualSetPoint") := by decide
  have htarget : Int.tdiv ((21 : Rat).num * 10) ((21 : Rat).den : Int) = 210 := by decide
  have hins : objInsert fs (cs "primary") (.obj []) = fs ++ [(cs "primary", .obj [])] :=
    objInsert_of_lookup_none _ _ _ hnoprim
  have hget : jsonLookup (objInsert fs (cs "primary") (.obj [])) (cs "primary") =
      some (.obj []) := jsonLookup_objInsert_self _ _ _
  have hins2 : objInsert (fs ++ [(cs "primary", .obj [])]) (cs "primary") spPrimaryObj =
      fs ++ [(cs "primary", spPrimaryObj)] := objInsert_append_last _ _ _ _ hnoprim
  have herase : objErase (fs ++ [(cs "primary", spPrimaryObj)]) (cs "manualTimer") =
      objErase fs (cs "manualTimer") ++ [(cs "primary", spPrimaryObj)] :=
    objErase_append_ne _ _ _ _ hne1
  simp only [spPrimaryObj] at hins2 herase
  refine ⟨?_, ?_, ?_, ?_⟩
  · unfold set_setpoint
    rw [hins] at hget
    simp [hload, pyContainsKey, hnoprim, pySetItem, pyGetItem, hins, hget, hins2,
      deleteManualTimer_obj, herase, htarget, except_bind_ok, except_pure, spPrimaryObj,
      objInsert, hne3]
  · rw [jsonLookup_append]
    simp [jsonLookup_objErase_self, jsonLookup, hne1]
  · rw [jsonLookup_append, jsonLookup_objErase_ne _ _ _ hne2, hnoprim]
    simp [jsonLookup]
  · obtain ⟨pre, hp⟩ := dumpFields_append_last
      (objErase fs (cs "manualTimer")) (cs "primary") spPrimaryObj
    refine ⟨pre, ?_⟩
    rw [hp]
    have hchars : dumpStr (cs "primary") ++ ':' :: jsonDumps spPrimaryObj =
        spPrimaryChars := by decide
    rw [hchars]

/-- Witness for C6: a device with empty settings gets the synthesized
primary object as the sole member of the outbound settings. -/
theorem C6_witness :
    loadedSettings baseDevice = .obj [] ∧
    set_setpoint true baseDevice 21 =
      .ok (deviceDataToSend baseDevice
             (jsonDumps (.obj [(cs "primary", spPrimaryObj)])),
           { baseDevice with
               settings := .str (jsonDumps (.obj [(cs "primary", spPrimaryObj)]))
               set_point := .num 21 }) :=
  ⟨by decide,
   (C6_setpoint_synthesizes_primary baseDevice [] (by decide) (by decide)).1⟩

/-- Counterexample for C6 as stated: when the settings object holds any
other key, the settings string produced by set_setpoint does not contain
the brace-wrapped fragment the claim quotes (the braces belong to the
enclosing object); and on a device whose settings JSON is a bare number
— which also contains no primary object — set_setpoint raises a
TypeError instead of producing anything. -/
theorem C6_counterexample :
    exceptOk (set_setpoint true devExtraKey 21) = true ∧
    (outboundSettings (set_setpoint true devExtraKey 21)).map
      (containsSeq spBracedChars) = some false ∧
    set_setpoint true devNumSettings 21 = .error .typeError :=
  ⟨by decide, by decide, by decide⟩

/-- C10 (amended): for every device outside the BLISS2/BLISS-HA family
whose settings string parses to a JSON object, set_mode completes for
every mode string without raising: the family-B mutation branch (and its
mode validation) is skipped entirely, the outbound settings string — also
cached on the device — serializes the parsed current settings with only
the manualTimer key removed (every other key, the mode field included, is
unchanged, whitespace being normalized by re-serialization), the
assembled mutation payload is produced for the active sync, and the
in-memory device's mode becomes the uppercased requested mode. -/
theorem C10_family_a_mode_skip (d : BlissDevice) (mode0 s : List Char)
    (fs : List (List Char × Json))
    (hmodel : d.model ≠ .str (cs "BLISS2") ∧ d.model ≠ .str (cs "BLISS-HA"))
    (hset : d.settings = .str s)
    (hparse : jsonLoads s = some (.obj fs)) :
    set_mode true d mode0 =
      .ok (deviceDataToSend d (jsonDumps (.obj (objErase fs (cs "manualTimer")))),
           { d with
               settings := .str (jsonDumps (.obj (objErase fs (cs "manualTimer"))))
               mode := .str (mode0.map Char.toUpper) }) ∧
    jsonLookup (objErase fs (cs "manualTimer")) (cs "manualTimer") = none ∧
    (∀ k, k ≠ cs "manualTimer" →
      jsonLookup (objErase fs (cs "manualTimer")) k = jsonLookup fs k) := by
  refine ⟨?_, jsonLookup_objErase_self _ _, ?_⟩
  · unfold set_mode
    simp [hset, hparse, hmodel.1, hmodel.2, deleteManualTimer_obj,
      except_bind_ok, except_pure]
  · intro k hk
    exact jsonLookup_objErase_ne _ _ _ (fun hh => hk hh.symm)

/-- Witness for C10: a BLISS1 device accepts the unsupported mode string
eco without raising and leaves its settings object unchanged. -/
theorem C10_witness :
    set_mode true devBliss1 (cs "eco") =
      .ok (deviceDataToSend devBliss1
             (jsonDumps (.obj (objErase [(cs "mode", .str (cs "OFF"))] (cs "manualTimer")))),
           { devBliss1 with
               settings := .str (jsonDumps (.obj
                 (objErase [(cs "mode", .str (cs "OFF"))] (cs "manualTimer"))))
               mode := .str ((cs "eco").map Char.toUpper) }) ∧
    (∀ k, k ≠ cs "manualTimer" →
      jsonLookup (objErase [(cs "mode", .str (cs "OFF"))] (cs "manualTimer")) k =
        jsonLookup [(cs "mode", .str (cs "OFF"))] k) :=
  ⟨(C10_family_a_mode_skip devBliss1 (cs "eco") (cs "\x7b\"mode\":\"OFF\"\x7d")
      [(cs "mode", .str (cs "OFF"))] ⟨by decide, by decide⟩ (by decide) (by decide)).1,
   (C10_family_a_mode_skip devBliss1 (cs "eco") (cs "\x7b\"mode\":\"OFF\"\x7d")
      [(cs "mode", .str (cs "OFF"))] ⟨by decide, by decide⟩ (by decide) (by decide)).2.2⟩

/-- Counterexample for C10 as stated: a family-A device whose settings
string is not valid JSON makes set_mode raise a JSONDecodeError rather
than complete; a lowercase requested mode string is stored uppercased,
not as requested; and a settings string with whitespace is re-serialized
compactly, so the outbound string differs from the current settings even
with no manualTimer key involved. -/
theorem C10_counterexample :
    set_mode true devBadSettings (cs "MANUAL") = .error .jsonDecodeError ∧
    resultDeviceMode (set_mode true devBliss1 (cs "manual")) =
      some (.str (cs "MANUAL")) ∧
    (Json.str (cs "MANUAL") ≠ .str (cs "manual")) ∧
    exceptOk (set_mode true devSpacedSettings (cs "AUTO")) = true ∧
    outboundSettings (set_mode true devSpacedSettings (cs "AUTO")) ≠
      some (cs "\x7b\"mode\": \"OFF\"\x7d") :=
  ⟨by decide, by decide, by decide, by decide, by decide⟩
